import Mathlib

/-!
Verification development for the ABI codec of the vyper code generator
(file vyper/codegen/abi.py).  The codec consists of

* a descriptor hierarchy (`ABIType` and its five query operations),
* the lowering `abi_type_of` from front-end types to descriptors,
* the child enumerator `o_list`,
* the encoder `abi_encode` and the decoder `abi_decode`, both of which
  emit LLL instruction trees.

The Python classes are embedded as a tagged variant (`ABIType`); the
subclasses `ABI_Address`, `ABI_Bool` and `ABI_Function` are kept as
distinct tags because only their `selector_name` differs from the
parent class behaviour.  Emitted LLL trees are embedded as the
inductive `LLL`; the external primitives `make_setter`, `zero_pad` and
`add_variable_offset` (imported from vyper.parser.parser_utils, whose
sources are not part of this development) are kept opaque, as
constructors recording exactly the arguments the codec passes to them.
Raising `CompilerPanic` is modelled with `Except`.  The encoder and
decoder recurse on the nodes returned by the child enumerator, which
for reference nodes are not structurally smaller, so both take a fuel
argument; running out of fuel is a distinguished error that the Python
original (which recurses on the type structure) never produces for
well-founded inputs.
-/

namespace AbiCodec

/-- Modelled from the spec: `ceil32` lives in vyper.utils, which is not
part of the sources under review.  Per the spec glossary it returns the
smallest multiple of 32 that is `≥ x`. -/
def ceil32 (x : Nat) : Nat := 32 * ((x + 31) / 32)

/-- Front-end type tree consumed by the codec: `BaseType` (with its
name string), `TupleLike` (member types in declared order),
`ListType` (subtype and count), `ByteArrayType` and `StringType`
(each with `maxlen`). -/
inductive FType where
  | base (typ : String)
  | tupleLike (members : List FType)
  | list (subtype : FType) (count : Nat)
  | byteArray (maxlen : Nat)
  | str (maxlen : Nat)
deriving Repr

/-- ABI type descriptors: one tag per Python class of abi.py.
`address` and `bool` behave as `gIntM 160 false` and `gIntM 8 false`
except for `selector_name`; `function` behaves as `bytesM 24`;
`string` behaves as `bytes` except for `selector_name`. -/
inductive ABIType where
  | gIntM (m_bits : Nat) (signed : Bool)
  | address
  | bool
  | fixedMxN (m_bits : Nat) (n_places : Nat) (signed : Bool)
  | bytesM (m_bytes : Nat)
  | function
  | staticArray (subtyp : ABIType) (m_elems : Nat)
  | bytes (bytes_bound : Nat)
  | string (bytes_bound : Nat)
  | dynamicArray (subtyp : ABIType) (elems_bound : Nat)
  | tuple (subtyps : List ABIType)
deriving Repr

mutual

/-- `is_dynamic` query (aka has tail).  Scalars answer `False`;
`ABI_StaticArray` delegates to the subtype; byte arrays, strings and
dynamic arrays answer `True`; `ABI_Tuple` answers
`any([t.is_dynamic() for t in self.subtyps])`. -/
def ABIType.is_dynamic : ABIType → Bool
  | .gIntM _ _ => false
  | .address => false
  | .bool => false
  | .fixedMxN _ _ _ => false
  | .bytesM _ => false
  | .function => false
  | .staticArray subtyp _ => subtyp.is_dynamic
  | .bytes _ => true
  | .string _ => true
  | .dynamicArray _ _ => true
  | .tuple subtyps => anyDynamic subtyps

/-- Embedding of `any([t.is_dynamic() for t in subtyps])`. -/
def anyDynamic : List ABIType → Bool
  | [] => false
  | t :: ts => t.is_dynamic || anyDynamic ts

end

mutual

/-- `static_size` query: the size in bytes occupied in the static
section (head).  Single-word scalars and all dynamic non-array types
return 32; `ABI_StaticArray` returns `m_elems * subtyp.static_size()`
(with no special case for a dynamic subtype); `ABI_Tuple` returns 32
when dynamic and otherwise the sum of member static sizes. -/
def ABIType.static_size : ABIType → Nat
  | .gIntM _ _ => 32
  | .address => 32
  | .bool => 32
  | .fixedMxN _ _ _ => 32
  | .bytesM _ => 32
  | .function => 32
  | .staticArray subtyp m_elems => m_elems * subtyp.static_size
  | .bytes _ => 32
  | .string _ => 32
  | .dynamicArray _ _ => 32
  | .tuple subtyps => if anyDynamic subtyps then 32 else staticSizeSum subtyps

/-- Embedding of `sum([t.static_size() for t in subtyps])`. -/
def staticSizeSum : List ABIType → Nat
  | [] => 0
  | t :: ts => t.static_size + staticSizeSum ts

end

mutual

/-- `dynamic_size_bound` query: the base-class default of 0 applies to
every scalar; `ABI_StaticArray` returns
`m_elems * subtyp.dynamic_size_bound()`; byte arrays and strings
return `32 + ceil32(bound)` (length word plus data);
`ABI_DynamicArray` returns `subtyp.dynamic_size_bound() * elems_bound`;
`ABI_Tuple` sums the member bounds. -/
def ABIType.dynamic_size_bound : ABIType → Nat
  | .gIntM _ _ => 0
  | .address => 0
  | .bool => 0
  | .fixedMxN _ _ _ => 0
  | .bytesM _ => 0
  | .function => 0
  | .staticArray subtyp m_elems => m_elems * subtyp.dynamic_size_bound
  | .bytes bytes_bound => 32 + ceil32 bytes_bound
  | .string bytes_bound => 32 + ceil32 bytes_bound
  | .dynamicArray subtyp elems_bound => subtyp.dynamic_size_bound * elems_bound
  | .tuple subtyps => dynBoundSum subtyps

/-- Embedding of `sum([t.dynamic_size_bound() for t in subtyps])`. -/
def dynBoundSum : List ABIType → Nat
  | [] => 0
  | t :: ts => t.dynamic_size_bound + dynBoundSum ts

end

/-- `is_tuple` query: whether the type is a tuple at the ABI level.
Only `ABI_StaticArray` and `ABI_Tuple` answer `True`. -/
def ABIType.is_tuple : ABIType → Bool
  | .staticArray _ _ => true
  | .tuple _ => true
  | _ => false

/-- `selector_name` query.  The base-class implementation raises, and
`ABI_Tuple` does not override it, so a tuple yields `none`; every
other class returns a string.  Two literal faithfulnesses matter here:
the `ABI_FixedMxN` implementation concatenates a plain (non-f-string)
literal, so the braces and attribute names appear verbatim in its
output, and the array forms interpolate the subtype name, so an error
from the subtype propagates (modelled by `Option.map`). -/
def ABIType.selector_name : ABIType → Option String
  | .gIntM m_bits signed =>
      some ((if signed then "" else "u") ++ "int" ++ toString m_bits)
  | .address => some "address"
  | .bool => some "bool"
  | .fixedMxN _ _ signed =>
      some ((if signed then "" else "u") ++ "fixed\x7bself.m_bits\x7dx\x7bself.n_places\x7d")
  | .bytesM m_bytes => some ("bytes" ++ toString m_bytes)
  | .function => some "function"
  | .staticArray subtyp m_elems =>
      subtyp.selector_name.map (fun s => s ++ "[" ++ toString m_elems ++ "]")
  | .bytes _ => some "bytes"
  | .string _ => some "string"
  | .dynamicArray subtyp _ =>
      subtyp.selector_name.map (fun s => s ++ "[]")
  | .tuple _ => none

mutual

/-- Eager constructor validation of the descriptor classes:
`ABI_GIntM` requires `0 < m_bits ≤ 256` and `m_bits % 8 == 0`;
`ABI_FixedMxN` additionally requires `0 < n_places ≤ 80`;
`ABI_BytesM` requires `0 < m_bytes ≤ 32`; the nonnegativity checks of
`ABI_StaticArray`, `ABI_Bytes`, `ABI_String` and `ABI_DynamicArray`
are vacuous over `Nat`; `ABI_Tuple.__init__` validates nothing.
A descriptor is constructible in the codec exactly when it and all of
its subdescriptors pass these checks. -/
def ABIType.valid : ABIType → Bool
  | .gIntM m_bits _ => 0 < m_bits && m_bits ≤ 256 && m_bits % 8 == 0
  | .address => true
  | .bool => true
  | .fixedMxN m_bits n_places _ =>
      (0 < m_bits && m_bits ≤ 256 && m_bits % 8 == 0) && (0 < n_places && n_places ≤ 80)
  | .bytesM m_bytes => 0 < m_bytes && m_bytes ≤ 32
  | .function => true
  | .staticArray subtyp _ => subtyp.valid
  | .bytes _ => true
  | .string _ => true
  | .dynamicArray subtyp _ => subtyp.valid
  | .tuple subtyps => validList subtyps

/-- Validity of every member of a descriptor list. -/
def validList : List ABIType → Bool
  | [] => true
  | t :: ts => t.valid && validList ts

end

/-- Compiler errors of the embedded codec.  `compilerPanic` models
raising `CompilerPanic`; `nameError` models a Python `NameError` for a
name the module never binds; `outOfFuel` is an artifact of the fuelled
embedding with no Python counterpart. -/
inductive Err where
  | compilerPanic (msg : String)
  | nameError (missing : String)
  | outOfFuel
deriving Repr

mutual

/-- `abi_type_of`: lowers a front-end type to a descriptor.  Base
names are tested in source order (uint256, int128, address, bytes32,
bool, decimal); an unknown base name raises `CompilerPanic`.
`TupleLike` lowers each member in declared order, `ListType` lowers
the subtype, `ByteArrayType` and `StringType` map to `ABI_Bytes` and
`ABI_String` with their `maxlen`. -/
def abi_type_of : FType → Except Err ABIType
  | .base t =>
      if t = "uint256" then .ok (.gIntM 256 false)
      else if t = "int128" then .ok (.gIntM 128 true)
      else if t = "address" then .ok .address
      else if t = "bytes32" then .ok (.bytesM 32)
      else if t = "bool" then .ok .bool
      else if t = "decimal" then .ok (.fixedMxN 168 10 true)
      else .error (.compilerPanic ("Unrecognized type " ++ t))
  | .tupleLike members =>
      match abi_type_of_list members with
      | .ok ts => .ok (.tuple ts)
      | .error e => .error e
  | .list subtype count =>
      match abi_type_of subtype with
      | .ok s => .ok (.staticArray s count)
      | .error e => .error e
  | .byteArray maxlen => .ok (.bytes maxlen)
  | .str maxlen => .ok (.string maxlen)

/-- Embedding of the comprehension `[abi_type_of(t) for t in members]`:
the first raised error propagates. -/
def abi_type_of_list : List FType → Except Err (List ABIType)
  | [] => .ok []
  | t :: ts =>
      match abi_type_of t with
      | .error e => .error e
      | .ok a =>
          match abi_type_of_list ts with
          | .error e => .error e
          | .ok rest => .ok (a :: rest)

end

/-- Typed source/destination LLL nodes as the codec consumes them.  A
node carries a head value, arguments, a front-end type annotation and
a location.  The distinguished head value `multi` marks a literal
aggregate (`lll_node.value == 'multi'`); `ref` stands for any other
node (its head value recorded as a string); `varOffset` is the
(opaque) node returned by `add_variable_offset` for a key of a parent
node. -/
inductive SrcNode where
  | multi (args : List SrcNode) (typ : FType) (location : String)
  | ref (value : String) (typ : FType) (location : String)
  | varOffset (parent : SrcNode) (key : Nat) (typ : FType) (location : String)
deriving Repr

/-- Type annotation of a node (`lll_node.typ`). -/
def SrcNode.typ : SrcNode → FType
  | .multi _ t _ => t
  | .ref _ t _ => t
  | .varOffset _ _ t _ => t

/-- Location annotation of a node (`lll_node.location`). -/
def SrcNode.location : SrcNode → String
  | .multi _ _ l => l
  | .ref _ _ l => l
  | .varOffset _ _ _ l => l

/-- Test `lll_node.value == 'multi'`. -/
def SrcNode.isMulti : SrcNode → Bool
  | .multi _ _ _ => true
  | _ => false

/-- Arguments of a node (`lll_node.args`; empty for the opaque
reference forms, whose Python arguments the codec never reads). -/
def SrcNode.args : SrcNode → List SrcNode
  | .multi a _ _ => a
  | _ => []

/-- Modelled from the spec: `add_variable_offset` lives in
vyper.parser.parser_utils, which is not part of the sources under
review.  Per spec section 4.C it yields, for key `k` of composite
node `n`, an IL subtree locating the child, typed with the member
type, without allocating runtime cells; the codec reads only `typ`
and `location` off the result, so it is kept opaque, tagged with the
parent, the key, the member type and the parent location.  (The
`array_bounds_check=False` and `pos` arguments are dropped: they do
not affect anything the codec observes.) -/
def add_variable_offset (parent : SrcNode) (key : Nat) (memberTyp : FType) : SrcNode :=
  .varOffset parent key memberTyp parent.location

/-- `o_list`: turn an lll node into the ordered list of child nodes,
based on its type.  For `TupleLike` and `ListType` nodes, a `multi`
literal contributes its args unchanged; otherwise one
`add_variable_offset` reference per key (tuple keys in declared
order, `0..count-1` for lists).  Every other type yields the node
itself as its sole element. -/
def o_list (lll_node : SrcNode) : List SrcNode :=
  match lll_node.typ with
  | .tupleLike members =>
      if lll_node.isMulti then lll_node.args
      else members.enum.map (fun p => add_variable_offset lll_node p.1 p.2)
  | .list subtype count =>
      if lll_node.isMulti then lll_node.args
      else (List.range count).map (fun i => add_variable_offset lll_node i subtype)
  | _ => [lll_node]

/-- Emitted LLL instruction trees.  `seq`, `withB` (the `with` binding
form), `set`, `mstore`, `mload`, `add`, `ceil32E` and literals follow
the operator vocabulary of the emitted programs; `varE` is a symbolic
name occurrence.  `makeSetter` and `zeroPad` are the opaque external
primitives `make_setter(d, src, copyLoc, pos)` and `zero_pad(d)` from
vyper.parser.parser_utils, recording the destination reference `d`
(name, type and location annotation), the source node and the copy
location the encoder passes; `makeSetterDec` records the two-argument
`make_setter(left, right)` call emitted by the decoder; `ofNode`
embeds a typed node used directly as an expression. -/
inductive LLL where
  | seq (items : List LLL)
  | withB (name : String) (init : LLL) (body : LLL)
  | set (name : String) (e : LLL)
  | mstore (addr : LLL) (val : LLL)
  | mload (addr : LLL)
  | add (a : LLL) (b : LLL)
  | ceil32E (x : LLL)
  | lit (n : Nat)
  | varE (name : String)
  | makeSetter (dstName : String) (dstTyp : FType) (dstLocAnn : String)
      (src : SrcNode) (copyLoc : String)
  | zeroPad (dstName : String) (dstTyp : FType)
  | makeSetterDec (left : SrcNode) (right : SrcNode)
  | ofNode (n : SrcNode)
deriving Repr

/-- Test `isinstance(typ, BaseType)`. -/
def isBaseType : FType → Bool
  | .base _ => true
  | _ => false

/-- Test `isinstance(typ, ByteArrayLike)` (byte arrays and strings). -/
def isByteArrayLike : FType → Bool
  | .byteArray _ => true
  | .str _ => true
  | _ => false

/-- Stand-in for Python `str()` on front-end type objects; only used
inside panic message strings. -/
def ftStr : FType → String
  | .base t => t
  | .tupleLike _ => "tuple"
  | .list _ count => "list[" ++ toString count ++ "]"
  | .byteArray maxlen => "bytes[" ++ toString maxlen ++ "]"
  | .str maxlen => "string[" ++ toString maxlen ++ "]"

/-- The encoder's buffer-size precondition test, verbatim from the
source: `bufsz is not None and bufsz < 32 * size_bound`. -/
def bufszTooSmall (bufsz : Option Nat) (size_bound : Nat) : Bool :=
  match bufsz with
  | none => false
  | some b => b < 32 * size_bound

/-- The value appended to the emitted `seq` when `returns=True`:
the literal static size for a non-dynamic parent; the symbol
`dyn_ofst` for a dynamic tuple; `ceil32(32 + mload(dst_loc))` for a
bare dynamic byte array or string; otherwise `CompilerPanic` (whose
message in the source is again a non-interpolated literal). -/
def returnItems (parent_abi_t : ABIType) (typ : FType) : Except Err (List LLL) :=
  if !parent_abi_t.is_dynamic then .ok [.lit parent_abi_t.static_size]
  else if parent_abi_t.is_tuple then .ok [.varE "dyn_ofst"]
  else if isByteArrayLike typ then
    .ok [.ceil32E (.add (.lit 32) (.mload (.varE "dst_loc")))]
  else .error (.compilerPanic "unknown type \x7blll_node.typ\x7d")

/-- Embedding of the comprehension
`sum([abi_type_of(o.typ).static_size() for o in os])` used for
`dyn_section_start`: the list of child static sizes, with the first
lowering error propagating. -/
def childStaticSizes : List SrcNode → Except Err (List Nat)
  | [] => .ok []
  | o :: os =>
      match abi_type_of o.typ with
      | .error e => .error e
      | .ok t =>
          match childStaticSizes os with
          | .error e => .error e
          | .ok rest => .ok (t.static_size :: rest)

/-- The encoder's per-child loop (the `for i, o in enumerate(os)` body
of `abi_encode`), abstracted over the recursive encoding function so
that `abi_encode` itself can recurse structurally on fuel.  For a
tuple-like parent, a dynamic child contributes the store of
`dyn_ofst` to `dst_loc`, then the recursive encode at
`dst + dyn_ofst` with `returns=True` wrapped in the `dyn_ofst`
increment; a static child contributes the recursive encode at
`dst_loc` with `returns=False`.  For a non-tuple parent, a `BaseType`
child contributes `make_setter` into a memory reference at `dst_loc`,
a `ByteArrayLike` child contributes the setter followed by
`zero_pad`, and anything else raises.  After every child except the
last, `dst_loc` advances by the child's static size. -/
def encodeLoopWith (encode : LLL → SrcNode → Option Nat → Bool → Except Err LLL)
    (parent_abi_t : ABIType) : List SrcNode → Except Err (List LLL)
  | [] => .ok []
  | o :: rest =>
      match abi_type_of o.typ with
      | .error e => .error e
      | .ok abi_t =>
          match
            ((if parent_abi_t.is_tuple then
              if abi_t.is_dynamic then
                match encode (.add (.varE "dst") (.varE "dyn_ofst")) o none true with
                | .error e => .error e
                | .ok child =>
                    .ok [.mstore (.varE "dst_loc") (.varE "dyn_ofst"),
                         .set "dyn_ofst" (.add (.varE "dyn_ofst") child)]
              else
                match encode (.varE "dst_loc") o none false with
                | .error e => .error e
                | .ok sub => .ok [sub]
            else if isBaseType o.typ then
              .ok [.makeSetter "dst_loc" o.typ "memory" o "memory"]
            else if isByteArrayLike o.typ then
              .ok [.seq [.makeSetter "dst_loc" o.typ "memory" o o.location,
                         .zeroPad "dst_loc" o.typ]]
            else
              .error (.compilerPanic ("unreachable type: " ++ ftStr o.typ))) :
                Except Err (List LLL)) with
          | .error e => .error e
          | .ok items =>
              match encodeLoopWith encode parent_abi_t rest with
              | .error e => .error e
              | .ok restItems =>
                  .ok (items ++
                       (if rest.isEmpty then []
                        else [.set "dst_loc"
                                (.add (.varE "dst_loc") (.lit abi_t.static_size))]) ++
                       restItems)

/-- `abi_encode(dst, lll_node, pos, bufsz, returns)`, fuelled.  The
emitted program writes the node into the buffer at `dst`: after the
buffer-size precondition check (against `32 * size_bound`, verbatim
from the source) the per-child loop runs, the optional `returns`
value is appended, the whole `seq` is wrapped in a
`with dyn_ofst = sum of child static sizes` binding exactly when the
parent descriptor is both dynamic and a tuple, and finally in
`with dst = <dst expr>, with dst_loc = dst`. -/
def abi_encode : Nat → LLL → SrcNode → Option Nat → Bool → Except Err LLL
  | 0 => fun _ _ _ _ => .error .outOfFuel
  | fuel + 1 => fun dst lll_node bufsz returns =>
      match abi_type_of lll_node.typ with
      | .error e => .error e
      | .ok parent_abi_t =>
          if bufszTooSmall bufsz (parent_abi_t.static_size + parent_abi_t.dynamic_size_bound) then
            .error (.compilerPanic "buffer provided to abi_encode not large enough")
          else
            match encodeLoopWith (abi_encode fuel) parent_abi_t (o_list lll_node) with
            | .error e => .error e
            | .ok items =>
                match (if returns then returnItems parent_abi_t lll_node.typ else .ok []) with
                | .error e => .error e
                | .ok retIt =>
                    if parent_abi_t.is_dynamic && parent_abi_t.is_tuple then
                      match childStaticSizes (o_list lll_node) with
                      | .error e => .error e
                      | .ok sts =>
                          .ok (.withB "dst" dst (.withB "dst_loc" (.varE "dst")
                                (.withB "dyn_ofst" (.lit sts.sum)
                                  (.seq (items ++ retIt)))))
                    else
                      .ok (.withB "dst" dst (.withB "dst_loc" (.varE "dst")
                            (.seq (items ++ retIt))))

/-- The decoder's per-child loop (the `for i, o in enumerate(os)` body
of `abi_decode`), abstracted over the recursive decoding function.
Inside the loop the source rebinds `src_loc` to a node
`LLLnode('src_loc', typ=o.typ, location=src.location)`.  For a
tuple-like parent and a dynamic child, the source computes
`child_loc = ['add', src, unwrap_location(src_loc)]`, but the module
never imports `unwrap_location` (its import list names only
`add_variable_offset`, `make_setter` and `zero_pad`), so evaluating
that branch raises `NameError`; for a static child it recursively
decodes the child from `src_loc`.  For a non-tuple parent it emits
`make_setter(o, src_loc)`.  After every child except the last,
`src_loc` advances by the child's static size. -/
def decodeLoopWith (decode : SrcNode → SrcNode → Except Err LLL)
    (parent_abi_t : ABIType) (srcLocation : String) : List SrcNode → Except Err (List LLL)
  | [] => .ok []
  | o :: rest =>
      match abi_type_of o.typ with
      | .error e => .error e
      | .ok abi_t =>
          match
            ((if parent_abi_t.is_tuple then
              if abi_t.is_dynamic then
                .error (.nameError "unwrap_location")
              else
                match decode o (.ref "src_loc" o.typ srcLocation) with
                | .error e => .error e
                | .ok r => .ok [r]
            else
              .ok [.makeSetterDec o (.ref "src_loc" o.typ srcLocation)]) :
                Except Err (List LLL)) with
          | .error e => .error e
          | .ok items =>
              match decodeLoopWith decode parent_abi_t srcLocation rest with
              | .error e => .error e
              | .ok restItems =>
                  .ok (items ++
                       (if rest.isEmpty then []
                        else [.set "src_loc"
                                (.add (.varE "src_loc") (.lit abi_t.static_size))]) ++
                       restItems)

/-- `abi_decode(lll_node, src, pos)`, fuelled: recursively copy the
items of the ABI buffer `src` into the typed destination `lll_node`.
The parent descriptor is computed from `src.typ`, the children are
enumerated from the destination, and the emitted items are wrapped in
`with src = <src node>, with src_loc = src`. -/
def abi_decode : Nat → SrcNode → SrcNode → Except Err LLL
  | 0 => fun _ _ => .error .outOfFuel
  | fuel + 1 => fun lll_node src =>
      match abi_type_of src.typ with
      | .error e => .error e
      | .ok parent_abi_t =>
          match decodeLoopWith (abi_decode fuel) parent_abi_t src.location (o_list lll_node) with
          | .error e => .error e
          | .ok items =>
              .ok (.withB "src" (.ofNode src) (.withB "src_loc" (.varE "src") (.seq items)))

mutual

/-- The front-end alphabet on which the spec asserts totality of
`abi_type_of`: every base name drawn from the six recognized names,
recursively through tuples and lists. -/
def onAlphabet : FType → Bool
  | .base t =>
      t = "uint256" || t = "int128" || t = "address" || t = "bytes32" ||
      t = "bool" || t = "decimal"
  | .tupleLike members => onAlphabetList members
  | .list subtype _ => onAlphabet subtype
  | .byteArray _ => true
  | .str _ => true

/-- Alphabet membership of every member type. -/
def onAlphabetList : List FType → Bool
  | [] => true
  | t :: ts => onAlphabet t && onAlphabetList ts

end

/-- Descriptors whose `selector_name` computation reaches an
`ABI_Tuple` through the `StaticArray`/`DynamicArray` subtype chain
(the exact set on which the Python computation raises). -/
def tupleInChain : ABIType → Bool
  | .tuple _ => true
  | .staticArray subtyp _ => tupleInChain subtyp
  | .dynamicArray subtyp _ => tupleInChain subtyp
  | _ => false

/-- Whether a descriptor is built by the `ABI_Tuple` constructor
itself (the variant test, as opposed to the `is_tuple` ABI query,
which `ABI_StaticArray` also answers positively). -/
def isTupleCtor : ABIType → Bool
  | .tuple _ => true
  | _ => false

mutual

theorem is_dynamic_false_bound : ∀ t : ABIType, t.is_dynamic = false → t.dynamic_size_bound = 0
  | .gIntM _ _, _ => rfl
  | .address, _ => rfl
  | .bool, _ => rfl
  | .fixedMxN _ _ _, _ => rfl
  | .bytesM _, _ => rfl
  | .function, _ => rfl
  | .staticArray subtyp m_elems, h => by
      simp only [ABIType.is_dynamic] at h
      simp [ABIType.dynamic_size_bound, is_dynamic_false_bound subtyp h]
  | .tuple subtyps, h => by
      simp only [ABIType.is_dynamic] at h
      simp [ABIType.dynamic_size_bound, is_dynamic_false_bound_list subtyps h]

theorem is_dynamic_false_bound_list :
    ∀ ts : List ABIType, anyDynamic ts = false → dynBoundSum ts = 0
  | [], _ => rfl
  | t :: ts, h => by
      simp only [anyDynamic, Bool.or_eq_false_iff] at h
      simp [dynBoundSum, is_dynamic_false_bound t h.1, is_dynamic_false_bound_list ts h.2]

end

theorem selector_name_none_iff_chain :
    ∀ t : ABIType, t.selector_name = none ↔ tupleInChain t = true
  | .gIntM _ _ => by simp [ABIType.selector_name, tupleInChain]
  | .address => by simp [ABIType.selector_name, tupleInChain]
  | .bool => by simp [ABIType.selector_name, tupleInChain]
  | .fixedMxN _ _ _ => by simp [ABIType.selector_name, tupleInChain]
  | .bytesM _ => by simp [ABIType.selector_name, tupleInChain]
  | .function => by simp [ABIType.selector_name, tupleInChain]
  | .staticArray subtyp _ => by
      simp only [ABIType.selector_name, tupleInChain, Option.map_eq_none']
      exact selector_name_none_iff_chain subtyp
  | .bytes _ => by simp [ABIType.selector_name, tupleInChain]
  | .string _ => by simp [ABIType.selector_name, tupleInChain]
  | .dynamicArray subtyp _ => by
      simp only [ABIType.selector_name, tupleInChain, Option.map_eq_none']
      exact selector_name_none_iff_chain subtyp
  | .tuple _ => by simp [ABIType.selector_name, tupleInChain]

/-- C1.  The claim asserts that every constructible descriptor with
`is_dynamic = true` has `static_size = 32`.  The code does keep every
static size a multiple of 32, but `ABI_StaticArray.static_size`
multiplies the element count by the subtype head size with no special
case for a dynamic subtype, contradicting the documented head-slot
meaning of `static_size` (for which `ABI_Tuple` does have the special
case): `ABI_StaticArray(ABI_Bytes(0), 2)` passes every constructor
check, is dynamic, and reports static size 64 rather than 32. -/
theorem dynamic_static_array_static_size_eval :
    (ABIType.staticArray (.bytes 0) 2).valid = true ∧
    (ABIType.staticArray (.bytes 0) 2).is_dynamic = true ∧
    (ABIType.staticArray (.bytes 0) 2).static_size = 64 ∧
    (ABIType.staticArray (.bytes 0) 2).static_size ≠ 32 :=
  ⟨rfl, rfl, rfl, by decide⟩

/-- C2.  The claim asserts that no buffer-size failure is raised when
the supplied `bufsz` is at least `static_size + dynamic_size_bound`
bytes.  For a `uint256` node that byte bound is 32, yet the source
compares `bufsz < 32 * size_bound`, so `abi_encode` with `bufsz = 32`
raises `CompilerPanic` anyway. -/
theorem abi_encode_bufsz_check_uses_32x_eval :
    abi_type_of (SrcNode.ref "x" (.base "uint256") "memory").typ = .ok (.gIntM 256 false) ∧
    (ABIType.gIntM 256 false).static_size + (ABIType.gIntM 256 false).dynamic_size_bound = 32 ∧
    abi_encode 1 (.varE "d") (SrcNode.ref "x" (.base "uint256") "memory") (some 32) false
      = .error (.compilerPanic "buffer provided to abi_encode not large enough") ∧
    abi_encode 1 (.varE "d") (SrcNode.ref "x" (.base "uint256") "memory") (some 1023) false
      = .error (.compilerPanic "buffer provided to abi_encode not large enough") ∧
    abi_encode 1 (.varE "d") (SrcNode.ref "x" (.base "uint256") "memory") (some 1024) false
      = .ok (.withB "dst" (.varE "d") (.withB "dst_loc" (.varE "dst")
          (.seq [.makeSetter "dst_loc" (.base "uint256") "memory"
                   (SrcNode.ref "x" (.base "uint256") "memory") "memory"]))) :=
  ⟨rfl, rfl, rfl, rfl, rfl⟩

/-- C4.  The lowering of `decimal` is `FixedMxN(168, 10, signed)` as
claimed, but `ABI_FixedMxN.selector_name` concatenates a plain string
literal (not an f-string), so the selector name comes out as the
verbatim text with braces and attribute names, not `fixed168x10`. -/
theorem decimal_lowering_and_selector_name_eval :
    abi_type_of (.base "decimal") = .ok (.fixedMxN 168 10 true) ∧
    (ABIType.fixedMxN 168 10 true).selector_name
      = some "fixed\x7bself.m_bits\x7dx\x7bself.n_places\x7d" ∧
    (ABIType.fixedMxN 168 10 true).selector_name ≠ some "fixed168x10" :=
  ⟨rfl, rfl, by decide⟩

/-- C5.  Decoding a tuple-like destination with a dynamic child never
reaches the claimed `src + *src_loc` recursion: the source calls
`unwrap_location`, a name the module never imports, so the emission
raises `NameError` at the first dynamic child (first conjunct).  The
static-child and cursor-advance parts of the claim do hold: for a
`(uint256, uint256)` destination, each child is decoded recursively
from the `src_loc` node and `src_loc` advances by the child's static
size after every child except the last (second conjunct). -/
theorem abi_decode_dynamic_child_name_error_eval :
    abi_decode 1 (SrcNode.ref "x" (.tupleLike [.byteArray 5]) "memory")
        (SrcNode.ref "buf" (.tupleLike [.byteArray 5]) "memory")
      = .error (.nameError "unwrap_location") ∧
    abi_decode 2 (SrcNode.ref "x" (.tupleLike [.base "uint256", .base "uint256"]) "memory")
        (SrcNode.ref "buf" (.tupleLike [.base "uint256", .base "uint256"]) "memory")
      = .ok (.withB "src"
          (.ofNode (SrcNode.ref "buf" (.tupleLike [.base "uint256", .base "uint256"]) "memory"))
          (.withB "src_loc" (.varE "src")
            (.seq
              [.withB "src" (.ofNode (SrcNode.ref "src_loc" (.base "uint256") "memory"))
                 (.withB "src_loc" (.varE "src")
                   (.seq [.makeSetterDec
                            (SrcNode.varOffset
                              (SrcNode.ref "x"
                                (.tupleLike [.base "uint256", .base "uint256"]) "memory")
                              0 (.base "uint256") "memory")
                            (SrcNode.ref "src_loc" (.base "uint256") "memory")])),
               .set "src_loc" (.add (.varE "src_loc") (.lit 32)),
               .withB "src" (.ofNode (SrcNode.ref "src_loc" (.base "uint256") "memory"))
                 (.withB "src_loc" (.varE "src")
                   (.seq [.makeSetterDec
                            (SrcNode.varOffset
                              (SrcNode.ref "x"
                                (.tupleLike [.base "uint256", .base "uint256"]) "memory")
                              1 (.base "uint256") "memory")
                            (SrcNode.ref "src_loc" (.base "uint256") "memory")]))]))) :=
  ⟨rfl, rfl⟩

/-- C9: every constructible descriptor that is not dynamic has
dynamic size bound 0 (scalars by the base-class default, arrays and
tuples by structural induction over their members). -/
theorem static_implies_zero_dynamic_bound (t : ABIType) (_hv : t.valid = true)
    (h : t.is_dynamic = false) : t.dynamic_size_bound = 0 :=
  is_dynamic_false_bound t h

theorem static_implies_zero_dynamic_bound_witness :
    (ABIType.tuple [.gIntM 8 false, .staticArray (.bytesM 1) 3]).valid = true ∧
    (ABIType.tuple [.gIntM 8 false, .staticArray (.bytesM 1) 3]).is_dynamic = false ∧
    (ABIType.tuple [.gIntM 8 false, .staticArray (.bytesM 1) 3]).dynamic_size_bound = 0 :=
  ⟨rfl, rfl, static_implies_zero_dynamic_bound _ rfl rfl⟩

/-- C10 counterexample.  The claim asserts that every descriptor of a
variant other than `Tuple` returns a string from `selector_name`, but
a `StaticArray` whose subtype is a tuple propagates the tuple's
failure: `ABI_StaticArray(ABI_Tuple([]), 1)` is not of the `Tuple`
variant, yet its `selector_name` raises. -/
theorem selector_name_static_array_of_tuple_none :
    (ABIType.staticArray (.tuple []) 1).selector_name = none ∧
    isTupleCtor (ABIType.staticArray (.tuple []) 1) = false ∧
    (ABIType.staticArray (.tuple []) 1).valid = true :=
  ⟨rfl, rfl, rfl⟩

/-- C10 as amended: `selector_name` fails exactly on the descriptors
whose `StaticArray`/`DynamicArray` subtype chain reaches an
`ABI_Tuple` — in particular on every `Tuple` itself, which inherits
the raising base-class stub, while every other variant returns a
string whenever its subtype chain avoids tuples. -/
theorem selector_name_none_iff_tuple_in_chain (t : ABIType) :
    t.selector_name = none ↔ tupleInChain t = true :=
  selector_name_none_iff_chain t

theorem abi_type_of_list_ok_iff :
    ∀ (ms : List FType) (ts : List ABIType),
      abi_type_of_list ms = .ok ts ↔ List.Forall₂ (fun m a => abi_type_of m = .ok a) ms ts
  | [], ts => by
      constructor
      · intro h
        simp only [abi_type_of_list, Except.ok.injEq] at h
        subst h
        exact List.Forall₂.nil
      · intro h
        cases h
        rfl
  | m :: ms, ts => by
      constructor
      · intro h
        simp only [abi_type_of_list] at h
        cases hm : abi_type_of m with
        | error e => rw [hm] at h; cases h
        | ok a =>
          rw [hm] at h
          cases hl : abi_type_of_list ms with
          | error e => rw [hl] at h; cases h
          | ok rest =>
            rw [hl] at h
            cases h
            exact List.Forall₂.cons hm ((abi_type_of_list_ok_iff ms rest).1 hl)
      · intro h
        cases h with
        | cons h1 h2 =>
          simp only [abi_type_of_list]
          rw [h1, (abi_type_of_list_ok_iff ms _).2 h2]

mutual

theorem abi_type_of_total : ∀ ft : FType, onAlphabet ft = true → ∃ a, abi_type_of ft = .ok a
  | .base t, h => by
      simp only [onAlphabet, Bool.or_eq_true, decide_eq_true_eq] at h
      rcases h with ((((h | h) | h) | h) | h) | h <;> subst h <;> exact ⟨_, rfl⟩
  | .tupleLike ms, h => by
      obtain ⟨ts, hts⟩ := abi_type_of_total_list ms (by simpa [onAlphabet] using h)
      exact ⟨.tuple ts, by simp [abi_type_of, hts]⟩
  | .list subtype count, h => by
      obtain ⟨a, ha⟩ := abi_type_of_total subtype (by simpa [onAlphabet] using h)
      exact ⟨.staticArray a count, by simp [abi_type_of, ha]⟩
  | .byteArray _, _ => ⟨_, rfl⟩
  | .str _, _ => ⟨_, rfl⟩

theorem abi_type_of_total_list :
    ∀ fts : List FType, onAlphabetList fts = true → ∃ ts, abi_type_of_list fts = .ok ts
  | [], _ => ⟨[], rfl⟩
  | t :: ts, h => by
      simp only [onAlphabetList, Bool.and_eq_true] at h
      obtain ⟨a, ha⟩ := abi_type_of_total t h.1
      obtain ⟨rest, hrest⟩ := abi_type_of_total_list ts h.2
      exact ⟨a :: rest, by simp [abi_type_of_list, ha, hrest]⟩

end

/-- C8: `abi_type_of` lowers the six recognized base names exactly as
claimed, raises `CompilerPanic` with the offending name on every
other base name, lowers `TupleLike` to the tuple of the pointwise
lowerings in order, `ListType` to a static array of the lowered
subtype with the same count, `ByteArrayType` to `ABI_Bytes` and
`StringType` to `ABI_String` preserving `maxlen`, and is total on the
front-end alphabet. -/
theorem abi_type_of_total_and_exact :
    abi_type_of (.base "uint256") = .ok (.gIntM 256 false) ∧
    abi_type_of (.base "int128") = .ok (.gIntM 128 true) ∧
    abi_type_of (.base "address") = .ok .address ∧
    abi_type_of (.base "bytes32") = .ok (.bytesM 32) ∧
    abi_type_of (.base "bool") = .ok .bool ∧
    abi_type_of (.base "decimal") = .ok (.fixedMxN 168 10 true) ∧
    (∀ t : String, t ≠ "uint256" → t ≠ "int128" → t ≠ "address" → t ≠ "bytes32" →
      t ≠ "bool" → t ≠ "decimal" →
      abi_type_of (.base t) = .error (.compilerPanic ("Unrecognized type " ++ t))) ∧
    (∀ (members : List FType) (ts : List ABIType),
      abi_type_of (.tupleLike members) = .ok (.tuple ts) ↔
        List.Forall₂ (fun m a => abi_type_of m = .ok a) members ts) ∧
    (∀ (subtype : FType) (count : Nat) (a : ABIType),
      abi_type_of (.list subtype count) = .ok (.staticArray a count) ↔
        abi_type_of subtype = .ok a) ∧
    (∀ maxlen : Nat, abi_type_of (.byteArray maxlen) = .ok (.bytes maxlen)) ∧
    (∀ maxlen : Nat, abi_type_of (.str maxlen) = .ok (.string maxlen)) ∧
    (∀ ft : FType, onAlphabet ft = true → ∃ a, abi_type_of ft = .ok a) := by
  refine ⟨rfl, rfl, rfl, rfl, rfl, rfl, ?_, ?_, ?_, fun _ => rfl, fun _ => rfl, abi_type_of_total⟩
  · intro t h1 h2 h3 h4 h5 h6
    simp only [abi_type_of, if_neg h1, if_neg h2, if_neg h3, if_neg h4, if_neg h5, if_neg h6]
  · intro members ts
    constructor
    · intro h
      simp only [abi_type_of] at h
      cases hl : abi_type_of_list members with
      | error e => rw [hl] at h; cases h
      | ok rest =>
        rw [hl] at h
        cases h
        exact (abi_type_of_list_ok_iff members ts).1 hl
    · intro h
      simp only [abi_type_of]
      rw [(abi_type_of_list_ok_iff members ts).2 h]
  · intro subtype count a
    constructor
    · intro h
      simp only [abi_type_of] at h
      cases hs : abi_type_of subtype with
      | error e => rw [hs] at h; cases h
      | ok b =>
        rw [hs] at h
        simp only [Except.ok.injEq, ABIType.staticArray.injEq] at h
        rw [h.1]
    · intro h
      simp only [abi_type_of]
      rw [h]

/-- C3: a byte-array-like node encoded bare at the outermost level
emits no offset word — the whole emitted program is the
`make_setter` + `zero_pad` pair at `dst_loc` under the `dst`/`dst_loc`
bindings — whereas the same node as a dynamic child of a tuple-like
parent contributes a store of `dyn_ofst` at `dst_loc` followed by the
recursive encode into `dst + dyn_ofst` (inside the `dyn_ofst`
increment). -/
theorem bare_vs_tuple_child_bytes_encoding :
    (∀ (fuel : Nat) (dst : LLL) (o : SrcNode), isByteArrayLike o.typ = true →
       abi_encode (fuel + 1) dst o none false =
         .ok (.withB "dst" dst (.withB "dst_loc" (.varE "dst")
               (.seq [.seq [.makeSetter "dst_loc" o.typ "memory" o o.location,
                            .zeroPad "dst_loc" o.typ]])))) ∧
    (∀ (fuel : Nat) (parent_abi_t : ABIType) (o : SrcNode) (rest : List SrcNode)
       (child : LLL) (restItems : List LLL),
       parent_abi_t.is_tuple = true → isByteArrayLike o.typ = true →
       abi_encode (fuel + 1) (.add (.varE "dst") (.varE "dyn_ofst")) o none true = .ok child →
       encodeLoopWith (abi_encode (fuel + 1)) parent_abi_t rest = .ok restItems →
       encodeLoopWith (abi_encode (fuel + 1)) parent_abi_t (o :: rest) =
         .ok ([.mstore (.varE "dst_loc") (.varE "dyn_ofst"),
               .set "dyn_ofst" (.add (.varE "dyn_ofst") child)] ++
              (if rest.isEmpty then []
               else [.set "dst_loc" (.add (.varE "dst_loc") (.lit 32))]) ++
              restItems)) := by
  constructor
  · intro fuel dst o h
    cases hT : o.typ with
    | byteArray maxlen =>
        simp [abi_encode, hT, abi_type_of, bufszTooSmall, o_list, encodeLoopWith,
          isBaseType, isByteArrayLike, ABIType.is_tuple, ABIType.is_dynamic, returnItems]
    | str maxlen =>
        simp [abi_encode, hT, abi_type_of, bufszTooSmall, o_list, encodeLoopWith,
          isBaseType, isByteArrayLike, ABIType.is_tuple, ABIType.is_dynamic, returnItems]
    | base s => rw [hT] at h; simp [isByteArrayLike] at h
    | tupleLike ms => rw [hT] at h; simp [isByteArrayLike] at h
    | list s c => rw [hT] at h; simp [isByteArrayLike] at h
  · intro fuel parent_abi_t o rest child restItems hpt hba henc hrest
    cases hT : o.typ with
    | byteArray maxlen =>
        simp [encodeLoopWith, hT, abi_type_of, hpt, ABIType.is_dynamic,
          ABIType.static_size, henc, hrest]
    | str maxlen =>
        simp [encodeLoopWith, hT, abi_type_of, hpt, ABIType.is_dynamic,
          ABIType.static_size, henc, hrest]
    | base s => rw [hT] at hba; simp [isByteArrayLike] at hba
    | tupleLike ms => rw [hT] at hba; simp [isByteArrayLike] at hba
    | list s c => rw [hT] at hba; simp [isByteArrayLike] at hba

theorem bare_vs_tuple_child_bytes_encoding_witness :
    abi_encode 1 (.varE "buf") (SrcNode.ref "x" (.byteArray 4) "memory") none false
      = .ok (.withB "dst" (.varE "buf") (.withB "dst_loc" (.varE "dst")
          (.seq [.seq [.makeSetter "dst_loc" (.byteArray 4) "memory"
                         (SrcNode.ref "x" (.byteArray 4) "memory") "memory",
                       .zeroPad "dst_loc" (.byteArray 4)]]))) ∧
    encodeLoopWith (abi_encode 1) (.tuple [.bytes 4]) [SrcNode.ref "x" (.byteArray 4) "memory"]
      = .ok [.mstore (.varE "dst_loc") (.varE "dyn_ofst"),
             .set "dyn_ofst" (.add (.varE "dyn_ofst")
               (.withB "dst" (.add (.varE "dst") (.varE "dyn_ofst"))
                 (.withB "dst_loc" (.varE "dst")
                   (.seq [.seq [.makeSetter "dst_loc" (.byteArray 4) "memory"
                                  (SrcNode.ref "x" (.byteArray 4) "memory") "memory",
                                .zeroPad "dst_loc" (.byteArray 4)],
                          .ceil32E (.add (.lit 32) (.mload (.varE "dst_loc")))]))))] := by
  constructor
  · exact bare_vs_tuple_child_bytes_encoding.1 0 (.varE "buf")
      (SrcNode.ref "x" (.byteArray 4) "memory") rfl
  · have h := bare_vs_tuple_child_bytes_encoding.2 0 (.tuple [.bytes 4])
      (SrcNode.ref "x" (.byteArray 4) "memory") [] _ [] rfl rfl rfl rfl
    simpa using h

/-- C6: with `returns=True` (and no `bufsz`), the final item of the
emitted `seq` is the literal parent static size when the parent
descriptor is not dynamic; the symbol `dyn_ofst` when it is a dynamic
tuple; `ceil32(32 + mload(dst_loc))` when the node is a bare dynamic
byte array or string; and any other combination raises
`CompilerPanic`. -/
theorem abi_encode_returns_final_item :
    ∀ (fuel : Nat) (lll_node : SrcNode) (parent_abi_t : ABIType) (items : List LLL),
      abi_type_of lll_node.typ = .ok parent_abi_t →
      encodeLoopWith (abi_encode fuel) parent_abi_t (o_list lll_node) = .ok items →
      ((parent_abi_t.is_dynamic = false →
          ∀ dst : LLL, abi_encode (fuel + 1) dst lll_node none true =
            .ok (.withB "dst" dst (.withB "dst_loc" (.varE "dst")
                  (.seq (items ++ [.lit parent_abi_t.static_size]))))) ∧
       (parent_abi_t.is_dynamic = true → parent_abi_t.is_tuple = true →
          ∀ sts : List Nat, childStaticSizes (o_list lll_node) = .ok sts →
          ∀ dst : LLL, abi_encode (fuel + 1) dst lll_node none true =
            .ok (.withB "dst" dst (.withB "dst_loc" (.varE "dst")
                  (.withB "dyn_ofst" (.lit sts.sum)
                    (.seq (items ++ [.varE "dyn_ofst"])))))) ∧
       (parent_abi_t.is_dynamic = true → parent_abi_t.is_tuple = false →
          isByteArrayLike lll_node.typ = true →
          ∀ dst : LLL, abi_encode (fuel + 1) dst lll_node none true =
            .ok (.withB "dst" dst (.withB "dst_loc" (.varE "dst")
                  (.seq (items ++ [.ceil32E (.add (.lit 32) (.mload (.varE "dst_loc")))]))))) ∧
       (parent_abi_t.is_dynamic = true → parent_abi_t.is_tuple = false →
          isByteArrayLike lll_node.typ = false →
          ∀ dst : LLL, abi_encode (fuel + 1) dst lll_node none true =
            .error (.compilerPanic "unknown type \x7blll_node.typ\x7d"))) := by
  intro fuel lll_node parent_abi_t items h1 h2
  refine ⟨?_, ?_, ?_, ?_⟩
  · intro hdyn dst
    simp [abi_encode, h1, bufszTooSmall, h2, returnItems, hdyn]
  · intro hdyn htup sts hsts dst
    simp [abi_encode, h1, bufszTooSmall, h2, returnItems, hdyn, htup, hsts]
  · intro hdyn htup hba dst
    simp [abi_encode, h1, bufszTooSmall, h2, returnItems, hdyn, htup, hba]
  · intro hdyn htup hba dst
    simp [abi_encode, h1, bufszTooSmall, h2, returnItems, hdyn, htup, hba]

theorem abi_encode_returns_final_item_witness :
    abi_encode 1 (.varE "buf") (SrcNode.ref "x" (.byteArray 4) "memory") none true
      = .ok (.withB "dst" (.varE "buf") (.withB "dst_loc" (.varE "dst")
          (.seq [.seq [.makeSetter "dst_loc" (.byteArray 4) "memory"
                         (SrcNode.ref "x" (.byteArray 4) "memory") "memory",
                       .zeroPad "dst_loc" (.byteArray 4)],
                 .ceil32E (.add (.lit 32) (.mload (.varE "dst_loc")))]))) := by
  have h := abi_encode_returns_final_item 0 (SrcNode.ref "x" (.byteArray 4) "memory")
    (.bytes 4)
    [.seq [.makeSetter "dst_loc" (.byteArray 4) "memory"
             (SrcNode.ref "x" (.byteArray 4) "memory") "memory",
           .zeroPad "dst_loc" (.byteArray 4)]] rfl rfl
  exact h.2.2.1 rfl rfl rfl (.varE "buf")

/-- C7: the emitted program always binds `dst` to the caller's
destination expression and `dst_loc` to `dst` (so the destination
expression occurs exactly once, as the single `with` initializer,
and the body is the same tree for every destination expression), and
it allocates the `dyn_ofst` cell — initialised to the sum of the
children's static sizes — precisely when the parent descriptor is
both dynamic and a tuple. -/
theorem abi_encode_dyn_ofst_allocation :
    ∀ (fuel : Nat) (lll_node : SrcNode) (parent_abi_t : ABIType)
      (items retIt : List LLL) (returns : Bool),
      abi_type_of lll_node.typ = .ok parent_abi_t →
      encodeLoopWith (abi_encode fuel) parent_abi_t (o_list lll_node) = .ok items →
      (if returns then returnItems parent_abi_t lll_node.typ else .ok []) = .ok retIt →
      (((parent_abi_t.is_dynamic && parent_abi_t.is_tuple) = true →
          ∀ sts : List Nat, childStaticSizes (o_list lll_node) = .ok sts →
          ∀ dst : LLL, abi_encode (fuel + 1) dst lll_node none returns =
            .ok (.withB "dst" dst (.withB "dst_loc" (.varE "dst")
                  (.withB "dyn_ofst" (.lit sts.sum) (.seq (items ++ retIt)))))) ∧
       ((parent_abi_t.is_dynamic && parent_abi_t.is_tuple) = false →
          ∀ dst : LLL, abi_encode (fuel + 1) dst lll_node none returns =
            .ok (.withB "dst" dst (.withB "dst_loc" (.varE "dst")
                  (.seq (items ++ retIt)))))) := by
  intro fuel lll_node parent_abi_t items retIt returns h1 h2 h3
  constructor
  · intro hcond sts hsts dst
    simp [abi_encode, h1, bufszTooSmall, h2, h3, hcond, hsts]
  · intro hcond dst
    simp [abi_encode, h1, bufszTooSmall, h2, h3, hcond]

theorem abi_encode_dyn_ofst_allocation_witness :
    abi_encode 2 (.varE "buf")
        (SrcNode.multi [SrcNode.ref "x" (.byteArray 4) "memory"]
          (.tupleLike [.byteArray 4]) "memory") none false
      = .ok (.withB "dst" (.varE "buf") (.withB "dst_loc" (.varE "dst")
          (.withB "dyn_ofst" (.lit 32)
            (.seq [.mstore (.varE "dst_loc") (.varE "dyn_ofst"),
                   .set "dyn_ofst" (.add (.varE "dyn_ofst")
                     (.withB "dst" (.add (.varE "dst") (.varE "dyn_ofst"))
                       (.withB "dst_loc" (.varE "dst")
                         (.seq [.seq [.makeSetter "dst_loc" (.byteArray 4) "memory"
                                        (SrcNode.ref "x" (.byteArray 4) "memory") "memory",
                                      .zeroPad "dst_loc" (.byteArray 4)],
                                .ceil32E (.add (.lit 32) (.mload (.varE "dst_loc")))]))))])))) := by
  have h := abi_encode_dyn_ofst_allocation 1
    (SrcNode.multi [SrcNode.ref "x" (.byteArray 4) "memory"]
      (.tupleLike [.byteArray 4]) "memory")
    (.tuple [.bytes 4])
    [.mstore (.varE "dst_loc") (.varE "dyn_ofst"),
     .set "dyn_ofst" (.add (.varE "dyn_ofst")
       (.withB "dst" (.add (.varE "dst") (.varE "dyn_ofst"))
         (.withB "dst_loc" (.varE "dst")
           (.seq [.seq [.makeSetter "dst_loc" (.byteArray 4) "memory"
                          (SrcNode.ref "x" (.byteArray 4) "memory") "memory",
                        .zeroPad "dst_loc" (.byteArray 4)],
                  .ceil32E (.add (.lit 32) (.mload (.varE "dst_loc")))]))))]
    [] false rfl rfl rfl
  exact h.1 rfl [32] rfl (.varE "buf")

theorem abi_type_of_total_and_exact_witness :
    abi_type_of (.base "float") = .error (.compilerPanic "Unrecognized type float") ∧
    abi_type_of (.tupleLike [.base "bool", .byteArray 3]) = .ok (.tuple [.bool, .bytes 3]) ∧
    (∃ a, abi_type_of (.list (.base "uint256") 7) = .ok a) ∧
    (abi_type_of (.list (.base "decimal") 9) = .ok (.staticArray (.fixedMxN 168 10 true) 9) ↔
      abi_type_of (.base "decimal") = .ok (.fixedMxN 168 10 true)) := by
  obtain ⟨_, _, _, _, _, _, hbad, htup, hlist, _, _, htot⟩ := abi_type_of_total_and_exact
  refine ⟨?_, ?_, ?_, hlist _ 9 _⟩
  · exact hbad "float" (by decide) (by decide) (by decide) (by decide) (by decide) (by decide)
  · exact (htup [.base "bool", .byteArray 3] [.bool, .bytes 3]).2
      (List.Forall₂.cons rfl (List.Forall₂.cons rfl List.Forall₂.nil))
  · exact htot (.list (.base "uint256") 7) (by decide)

end AbiCodec
